import Mathlib

/-!
Shallow embedding of the Streamlit gTTS + STT application (src/app.py).

The external capabilities (the gTTS synthesis service, the Google web speech
recognizer behind SpeechRecognition, pydub decoding via ffmpeg, soundfile WAV
encoding) are modelled as oracle parameters; the orchestration code of
src/app.py — validation, temp-file lifecycle, error mapping, session-state
threading, and the rendered audio element — is translated directly.
-/

/-- The whitespace characters Python `str.strip()` removes (ASCII range). -/
def pyIsSpace (c : Char) : Bool :=
  c == ' ' || c == '\t' || c == '\n' || c == '\r' || c == Char.ofNat 11 || c == Char.ofNat 12

/-- Embedding of Python `text.strip()`: drop leading and trailing whitespace. -/
def pyStrip (s : String) : String :=
  String.mk (((s.data.dropWhile pyIsSpace).reverse.dropWhile pyIsSpace).reverse)

/-- Embedding of `lang.split("-")[0]` (src/app.py line 55): the selector text up
to its first hyphen. -/
def gtts_lang (lang : String) : String :=
  String.mk (lang.data.takeWhile (fun c => c != '-'))

/-- Behaviour of one `tts = gTTS(...); tts.save(tmp.name)` call against the
external synthesis service: `.ok audio` when the service writes MP3 bytes,
`.error e` when the call raises; `duration` is the abstract time the call
takes before returning. The handler in src/app.py is synchronous, so the model
simply records the duration of the call it waits out. -/
structure SynthBehavior where
  result : Except String (List Nat)
  duration : Nat

/-- Session state visible to the handlers: the `st.session_state["tts_text"]`
slot (the text area is keyed to it) and the temp files currently on disk. -/
structure AppState where
  tts_text : String
  files : List String
  deriving DecidableEq

/-- Outcome of the Speak (TTS) button handler (src/app.py lines 51-67):
`warned` for the blank-input `st.warning`, `played audio` when the MP3 is read
back and handed to `autoplay_audio_bytes`, `raised e` when `tts.save` raises
and the exception leaves the handler after the `finally` block ran. -/
inductive SpeakOutcome
  | warned
  | played (audio : List Nat)
  | raised (e : String)
  deriving DecidableEq

/-- Embedding of the Speak (TTS) button handler (src/app.py lines 51-67):
validate the stripped text, synthesize into a fresh temp file, play the bytes,
and unlink the temp file in the `finally` block on both the success path and
the exception path. -/
def onSpeakStep (lang : String) (synth : String → String → SynthBehavior)
    (tmpName : String) (s : AppState) : SpeakOutcome × AppState :=
  if pyStrip s.tts_text = "" then
    (SpeakOutcome.warned, s)
  else
    let b := synth s.tts_text (gtts_lang lang)
    let files1 := tmpName :: s.files
    match b.result with
    | Except.ok audio => (SpeakOutcome.played audio, { s with files := files1.erase tmpName })
    | Except.error e => (SpeakOutcome.raised e, { s with files := files1.erase tmpName })

/-- The two Put-transcription-into-TTS-text-area handlers (src/app.py lines
183-186 and 207-210): write the transcript string into the session slot. -/
def putTranscriptionClick (transcript : String) (s : AppState) : AppState :=
  { s with tts_text := transcript }

/-- Decoded WAV content as written by soundfile or a pydub export: a sample
rate, a channel count, and the sample data. -/
structure Wav where
  rate : Nat
  channels : Nat
  samples : List ℚ
  deriving DecidableEq

/-- Decoded audio handed to the recognizer by `recog.record(source)`. -/
abbrev AudioData := List Int

/-- The outcomes of `recog.recognize_google(audio_data)` per the
SpeechRecognition contract: a transcript, `UnknownValueError` (speech was
unintelligible, which is what silent or empty audio produces), or
`RequestError` (the API was unreachable or the request failed). -/
inductive RecogOutcome
  | success (text : String)
  | unknownValue
  | requestError (detail : String)
  deriving DecidableEq

/-- The string `transcribe_wav_bytes` returns for each recognition outcome
(src/app.py lines 139-144). -/
def recogMessage : RecogOutcome → String
  | RecogOutcome.success t => t
  | RecogOutcome.unknownValue => "(Could not understand audio)"
  | RecogOutcome.requestError e => "(Could not request results; " ++ e ++ ")"

/-- Embedding of `transcribe_wav_bytes` (src/app.py lines 130-149): write the
WAV to a fresh temp file, read it back (`sr.AudioFile` plus `recog.record`,
which may raise on unreadable data — that step is outside the inner `try`),
recognize, and unlink the temp file in the `finally` block. An exception from
the read-back step is returned as `.error`; the two recognizer exceptions are
caught and turned into strings. -/
def transcribe_wav_bytes (audioRead : Wav → Except String AudioData)
    (recognize : AudioData → RecogOutcome) (wav : Wav)
    (fs : List String) (tmpName : String) : Except String String × List String :=
  let fs1 := tmpName :: fs
  match audioRead wav with
  | Except.error e => (Except.error e, fs1.erase tmpName)
  | Except.ok ad => (Except.ok (recogMessage (recognize ad)), fs1.erase tmpName)

/-- One audio frame from the WebRTC receiver: its ndarray, which is either 1-D
(`mono`) or channels × samples (`multi`). -/
inductive FrameData
  | mono (samples : List ℚ)
  | multi (chans : List (List ℚ))
  deriving DecidableEq

/-- A received frame: its ndarray and its `sample_rate` attribute, `none` when
the attribute access raises (src/app.py lines 116-119). -/
structure Frame where
  nd : FrameData
  sample_rate : Option Nat
  deriving DecidableEq

/-- `np.mean(arr, axis=0)` for a 2-D array, and a 1-D array kept as is
(src/app.py lines 109-112). -/
def frameToMono : FrameData → List ℚ
  | FrameData.mono l => l
  | FrameData.multi chans => (List.transpose chans).map (fun col => col.sum / (col.length : ℚ))

/-- The sample rate the produced WAV is written at: the first frame's
`sample_rate` attribute, or the `sample_rate` argument when the attribute is
missing (src/app.py lines 114-119: `sr_rate` is only assigned while it is still
`None`, so only the first frame is consulted). -/
def firstRate (frames : List Frame) (dflt : Nat) : Nat :=
  match frames with
  | [] => dflt
  | f :: _ => Option.getD f.sample_rate dflt

/-- Embedding of `frames_to_wav_bytes` (src/app.py lines 93-128): average each
frame to mono, concatenate the chunks, and write a WAV at the first frame's
rate; `none` when no frames arrived (`if not chunks: return None`). -/
def frames_to_wav_bytes (frames : List Frame) (sample_rate : Nat) : Option Wav :=
  let chunks := frames.map (fun f => frameToMono f.nd)
  if chunks = [] then none
  else some { rate := firstRate frames sample_rate, channels := 1, samples := chunks.flatten }

/-- A pydub `AudioSegment`: the decoded upload, carrying its own frame rate and
channel count. -/
structure AudioSegment where
  frame_rate : Nat
  channels : Nat
  samples : List ℚ
  deriving DecidableEq

/-- `seg.export(bio, format="wav")` (src/app.py line 201): pydub writes the WAV
at the segment's own rate and channel count; the handler calls no
`set_frame_rate` or `set_channels`. -/
def AudioSegment.export_wav (seg : AudioSegment) : Wav :=
  { rate := seg.frame_rate, channels := seg.channels, samples := seg.samples }

/-- Outcome of the upload handler (src/app.py lines 194-212). -/
inductive UploadOutcome
  | transcribed (preview : Wav) (text : String)
  | errorShown (msg : String)
  deriving DecidableEq

/-- The message `st.error` shows when anything in the upload `try` block raises
(src/app.py line 212). -/
def uploadFailMsg (e : String) : String :=
  "Failed to convert/upload audio: " ++ e

/-- Embedding of the upload handler (src/app.py lines 194-212): decode the
uploaded bytes with pydub, export to WAV, transcribe; any exception raised in
the `try` block — from the decoder or from the read-back inside
`transcribe_wav_bytes` — is caught by the single `except Exception` and shown
as one generic error message. -/
def uploadHandler (decoder : List Nat → Except String AudioSegment)
    (audioRead : Wav → Except String AudioData) (recognize : AudioData → RecogOutcome)
    (bytes_in : List Nat) (fs : List String) (tmpName : String) :
    UploadOutcome × List String :=
  match decoder bytes_in with
  | Except.error e => (UploadOutcome.errorShown (uploadFailMsg e), fs)
  | Except.ok seg =>
    let wavb := AudioSegment.export_wav seg
    let r := transcribe_wav_bytes audioRead recognize wavb fs tmpName
    match r.1 with
    | Except.ok t => (UploadOutcome.transcribed wavb t, r.2)
    | Except.error e => (UploadOutcome.errorShown (uploadFailMsg e), r.2)

/-- The base64 alphabet, index 0 to 63. -/
def b64Chars : List Char :=
  String.data "ABCDEFGHIJKLMNOPQRSTUVWXYZabcdefghijklmnopqrstuvwxyz0123456789+/"

def b64Char (n : Nat) : Char :=
  List.getD b64Chars n 'A'

/-- RFC 4648 base64 of a byte list, as computed by `base64.b64encode`
(src/app.py line 41); bytes are taken mod 256. -/
def base64encode : List Nat → List Char
  | [] => []
  | [a] =>
    [b64Char (a % 256 / 4), b64Char (a % 256 % 4 * 16), '=', '=']
  | [a, b] =>
    [b64Char (a % 256 / 4), b64Char (a % 256 % 4 * 16 + b % 256 / 16),
      b64Char (b % 256 % 16 * 4), '=']
  | a :: b :: c :: rest =>
    b64Char (a % 256 / 4) :: b64Char (a % 256 % 4 * 16 + b % 256 / 16) ::
      b64Char (b % 256 % 16 * 4 + c % 256 / 64) :: b64Char (c % 256 % 64) ::
      base64encode rest

/-- The markdown emitted before the base64 payload in `autoplay_audio_bytes`
(src/app.py lines 42-49). -/
def audioHtmlPre : List Char :=
  String.data "\n        <audio autoplay controls>\n            <source src=\"data:audio/mp3;base64,"

/-- The markdown emitted after the base64 payload. -/
def audioHtmlPost : List Char :=
  String.data "\" type=\"audio/mp3\">\n        </audio>\n        "

/-- Embedding of `autoplay_audio_bytes` (src/app.py lines 40-49): the rendered
markdown, as a character list. -/
def autoplay_audio_bytes (audio : List Nat) : List Char :=
  audioHtmlPre ++ base64encode audio ++ audioHtmlPost

/-- `pat` occurs contiguously inside `l`. -/
def containsSeg (pat l : List Char) : Prop :=
  ∃ a z, l = a ++ pat ++ z

-- A quick sanity example while developing, kept as a plain theorem: base64 of
-- the two bytes of "Hi" is "SGk=".
theorem base64encode_Hi : base64encode [72, 105] = String.data "SGk=" := by decide

/-- Claim C1 as stated of the Speak handler: when the synthesis call exceeds
the 60-unit bound, the handler abandons it and surfaces a Timeout error, so
the over-bound call's audio is never played as a success. -/
def claimC1 : Prop :=
  ∀ (lang : String) (synth : String → String → SynthBehavior) (tmpName : String) (s : AppState),
    pyStrip s.tts_text ≠ "" →
    60 < (synth s.tts_text (gtts_lang lang)).duration →
    ∀ audio, (onSpeakStep lang synth tmpName s).1 ≠ SpeakOutcome.played audio

/-- Claim C1 is false of the code: the Speak handler imposes no timeout at
all; a synthesis call of duration 1000 — far over the stated 60-unit bound —
still completes and has its audio played, with no Timeout outcome anywhere. -/
theorem claimC1_refuted : claimC1 = False := by
  apply eq_false
  intro h
  exact h "en" (fun _ _ => SynthBehavior.mk (Except.ok [42]) 1000) "tmp0"
    (AppState.mk "Hi there" []) (by decide) (by decide) [42] (by decide)

/-- Claim C1 amended: the Speak handler runs the synthesis call to completion
with no timeout: its behaviour is independent of the call's duration, a
successful result is played whatever that duration was, the tts_text slot is
never modified by the handler, and the temp file is removed on every path. -/
theorem onSpeak_unbounded_no_timeout
    (lang : String) (synth : String → String → SynthBehavior) (tmpName : String)
    (s : AppState) (d : Nat) (audio : List Nat) :
    onSpeakStep lang (fun t l => SynthBehavior.mk (synth t l).result d) tmpName s =
      onSpeakStep lang synth tmpName s
    ∧ ((onSpeakStep lang synth tmpName s).2).tts_text = s.tts_text
    ∧ (tmpName ∉ s.files → ((onSpeakStep lang synth tmpName s).2).files = s.files)
    ∧ ((synth s.tts_text (gtts_lang lang)).result = Except.ok audio →
        pyStrip s.tts_text ≠ "" →
        (onSpeakStep lang synth tmpName s).1 = SpeakOutcome.played audio) := by
  by_cases hb : pyStrip s.tts_text = ""
  · refine ⟨?_, ?_, ?_, ?_⟩
    · simp [onSpeakStep, hb]
    · simp [onSpeakStep, hb]
    · intro _; simp [onSpeakStep, hb]
    · intro _ hnb; exact absurd hb hnb
  · rcases hr : (synth s.tts_text (gtts_lang lang)).result with e | audio2
    · refine ⟨?_, ?_, ?_, ?_⟩
      · simp [onSpeakStep, hb, hr]
      · simp [onSpeakStep, hb, hr]
      · intro _; simp [onSpeakStep, hb, hr, List.erase_cons_head]
      · intro hok; exact absurd hok (by simp)
    · refine ⟨?_, ?_, ?_, ?_⟩
      · simp [onSpeakStep, hb, hr]
      · simp [onSpeakStep, hb, hr]
      · intro _; simp [onSpeakStep, hb, hr, List.erase_cons_head]
      · intro hok _
        injection hok with h2
        subst h2
        simp [onSpeakStep, hb, hr]

/-- Witness for the amended C1 theorem at a concrete over-bound call. -/
theorem onSpeak_unbounded_no_timeout_witness :
    ("tmp0" ∉ (AppState.mk "Hi there" []).files ∧
      pyStrip (AppState.mk "Hi there" []).tts_text ≠ "")
    ∧ ((onSpeakStep "en" (fun _ _ => SynthBehavior.mk (Except.ok [42]) 1000) "tmp0"
        (AppState.mk "Hi there" [])).2).files = []
    ∧ (onSpeakStep "en" (fun _ _ => SynthBehavior.mk (Except.ok [42]) 1000) "tmp0"
        (AppState.mk "Hi there" [])).1 = SpeakOutcome.played [42] :=
  ⟨⟨by decide, by decide⟩,
    (onSpeak_unbounded_no_timeout "en" (fun _ _ => SynthBehavior.mk (Except.ok [42]) 1000)
      "tmp0" (AppState.mk "Hi there" []) 0 [42]).2.2.1 (by decide),
    (onSpeak_unbounded_no_timeout "en" (fun _ _ => SynthBehavior.mk (Except.ok [42]) 1000)
      "tmp0" (AppState.mk "Hi there" []) 0 [42]).2.2.2 rfl (by decide)⟩

/-- Claim C2: the confirm handler writes the transcript into the same tts_text
slot the Speak handler reads, so the next Speak invocation synthesizes exactly
the freshly transcribed text. -/
theorem transcript_feeds_next_speak
    (t lang tmpName : String) (s : AppState)
    (synth : String → String → SynthBehavior) (audio : List Nat)
    (hnb : pyStrip t ≠ "")
    (hok : (synth t (gtts_lang lang)).result = Except.ok audio) :
    (putTranscriptionClick t s).tts_text = t
    ∧ (onSpeakStep lang synth tmpName (putTranscriptionClick t s)).1 =
        SpeakOutcome.played audio := by
  refine ⟨rfl, ?_⟩
  simp [onSpeakStep, putTranscriptionClick, hnb, hok]

/-- Witness for C2 at a concrete transcript. -/
theorem transcript_feeds_next_speak_witness :
    (pyStrip "hello world" ≠ "" ∧
      ((fun _ _ => SynthBehavior.mk (Except.ok [7]) 1) "hello world" (gtts_lang "en")).result =
        Except.ok [7])
    ∧ (onSpeakStep "en" (fun _ _ => SynthBehavior.mk (Except.ok [7]) 1) "tmp0"
        (putTranscriptionClick "hello world" (AppState.mk "old" []))).1 =
        SpeakOutcome.played [7] :=
  ⟨⟨by decide, rfl⟩,
    (transcript_feeds_next_speak "hello world" "en" "tmp0" (AppState.mk "old" [])
      (fun _ _ => SynthBehavior.mk (Except.ok [7]) 1) [7] (by decide) rfl).2⟩

/-- Claim C3: with blank or whitespace-only text the Speak handler warns and
leaves the state untouched, and its behaviour is the same for every synthesis
oracle — the Synthesis Stage is never consulted. -/
theorem blank_text_warns_no_synthesis
    (lang tmpName : String) (s : AppState)
    (synth synth2 : String → String → SynthBehavior)
    (hb : pyStrip s.tts_text = "") :
    onSpeakStep lang synth tmpName s = (SpeakOutcome.warned, s)
    ∧ onSpeakStep lang synth tmpName s = onSpeakStep lang synth2 tmpName s := by
  constructor
  · simp [onSpeakStep, hb]
  · simp [onSpeakStep, hb]

/-- Witness for C3 on a whitespace-only text slot. -/
theorem blank_text_warns_no_synthesis_witness :
    pyStrip (AppState.mk "   " ["f"]).tts_text = ""
    ∧ onSpeakStep "en" (fun _ _ => SynthBehavior.mk (Except.ok [9]) 1) "tmp0"
        (AppState.mk "   " ["f"]) = (SpeakOutcome.warned, AppState.mk "   " ["f"]) :=
  ⟨by decide,
    (blank_text_warns_no_synthesis "en" "tmp0" (AppState.mk "   " ["f"])
      (fun _ _ => SynthBehavior.mk (Except.ok [9]) 1)
      (fun _ _ => SynthBehavior.mk (Except.error "x") 1) (by decide)).1⟩

/-- Claim C4: every outcome of the recognition call is returned as an ordinary
value — no raw exception from `recognize_google` escapes `transcribe_wav_bytes`
— with `UnknownValueError` (what silent or empty audio produces) mapped to the
could-not-understand message and `RequestError` mapped to the
could-not-request message carrying the detail. -/
theorem recognition_errors_mapped
    (audioRead : Wav → Except String AudioData) (recognize : AudioData → RecogOutcome)
    (wav : Wav) (fs : List String) (tmpName : String) (ad : AudioData)
    (h : audioRead wav = Except.ok ad) :
    (transcribe_wav_bytes audioRead recognize wav fs tmpName).1 =
      Except.ok (recogMessage (recognize ad))
    ∧ (recognize ad = RecogOutcome.unknownValue →
        (transcribe_wav_bytes audioRead recognize wav fs tmpName).1 =
          Except.ok "(Could not understand audio)")
    ∧ (∀ d, recognize ad = RecogOutcome.requestError d →
        (transcribe_wav_bytes audioRead recognize wav fs tmpName).1 =
          Except.ok ("(Could not request results; " ++ d ++ ")"))
    ∧ (∀ t, recognize ad = RecogOutcome.success t →
        (transcribe_wav_bytes audioRead recognize wav fs tmpName).1 = Except.ok t) := by
  refine ⟨?_, ?_, ?_, ?_⟩
  · simp [transcribe_wav_bytes, h]
  · intro hu; simp [transcribe_wav_bytes, h, hu, recogMessage]
  · intro d hd; simp [transcribe_wav_bytes, h, hd, recogMessage]
  · intro t ht; simp [transcribe_wav_bytes, h, ht, recogMessage]

/-- Witness for C4: a silent clip whose recognition raises UnknownValueError
comes back as the could-not-understand string, not as an exception. -/
theorem recognition_errors_mapped_witness :
    ((fun _ : Wav => (Except.ok ([] : AudioData) : Except String AudioData)) (Wav.mk 48000 1 []) =
      (Except.ok ([] : AudioData) : Except String AudioData))
    ∧ (transcribe_wav_bytes (fun _ => Except.ok ([] : AudioData))
        (fun _ => RecogOutcome.unknownValue) (Wav.mk 48000 1 []) [] "tmp0").1 =
      Except.ok "(Could not understand audio)" :=
  ⟨rfl,
    (recognition_errors_mapped (fun _ => Except.ok ([] : AudioData))
      (fun _ => RecogOutcome.unknownValue) (Wav.mk 48000 1 []) [] "tmp0" [] rfl).2.1 rfl⟩

/-- Claim C5: the temp file created by the Speak handler and the temp file
created by `transcribe_wav_bytes` are both removed on every exit path —
success, caught recognizer failure, and uncaught exception alike — and the
upload handler leaves the file list as it found it. -/
theorem temp_files_removed_every_path
    (lang : String) (synth : String → String → SynthBehavior) (tmpName : String)
    (s : AppState)
    (audioRead : Wav → Except String AudioData) (recognize : AudioData → RecogOutcome)
    (wav : Wav) (fs : List String) (tmpName2 : String)
    (decoder : List Nat → Except String AudioSegment) (bytes_in : List Nat)
    (h1 : tmpName ∉ s.files) (h2 : tmpName2 ∉ fs) :
    ((onSpeakStep lang synth tmpName s).2).files = s.files
    ∧ tmpName ∉ ((onSpeakStep lang synth tmpName s).2).files
    ∧ (transcribe_wav_bytes audioRead recognize wav fs tmpName2).2 = fs
    ∧ tmpName2 ∉ (transcribe_wav_bytes audioRead recognize wav fs tmpName2).2
    ∧ (uploadHandler decoder audioRead recognize bytes_in fs tmpName2).2 = fs := by
  have hsp : ((onSpeakStep lang synth tmpName s).2).files = s.files := by
    by_cases hb : pyStrip s.tts_text = ""
    · simp [onSpeakStep, hb]
    · rcases hr : (synth s.tts_text (gtts_lang lang)).result with e | audio
      · simp [onSpeakStep, hb, hr, List.erase_cons_head]
      · simp [onSpeakStep, hb, hr, List.erase_cons_head]
  have htr : ∀ w : Wav, (transcribe_wav_bytes audioRead recognize w fs tmpName2).2 = fs := by
    intro w
    rcases ha : audioRead w with e | ad
    · simp [transcribe_wav_bytes, ha, List.erase_cons_head]
    · simp [transcribe_wav_bytes, ha, List.erase_cons_head]
  have hup : (uploadHandler decoder audioRead recognize bytes_in fs tmpName2).2 = fs := by
    rcases hd : decoder bytes_in with e | seg
    · simp [uploadHandler, hd]
    · rcases ht : (transcribe_wav_bytes audioRead recognize
          (AudioSegment.export_wav seg) fs tmpName2).1 with e2 | t
      · simpa [uploadHandler, hd, ht] using htr (AudioSegment.export_wav seg)
      · simpa [uploadHandler, hd, ht] using htr (AudioSegment.export_wav seg)
  refine ⟨hsp, ?_, htr wav, ?_, hup⟩
  · rw [hsp]; exact h1
  · rw [htr wav]; exact h2

/-- Witness for C5 at a concrete fresh temp name on each path. -/
theorem temp_files_removed_every_path_witness :
    ("tmp0" ∉ (AppState.mk "Hi there" ["keep"]).files ∧ "tmp1" ∉ ["keep2"])
    ∧ ((onSpeakStep "en" (fun _ _ => SynthBehavior.mk (Except.error "boom") 1) "tmp0"
        (AppState.mk "Hi there" ["keep"])).2).files = ["keep"]
    ∧ (transcribe_wav_bytes (fun _ => Except.error "unreadable")
        (fun _ => RecogOutcome.unknownValue) (Wav.mk 48000 1 []) ["keep2"] "tmp1").2 =
      ["keep2"] :=
  ⟨⟨by decide, by decide⟩,
    (temp_files_removed_every_path "en" (fun _ _ => SynthBehavior.mk (Except.error "boom") 1)
      "tmp0" (AppState.mk "Hi there" ["keep"]) (fun _ => Except.error "unreadable")
      (fun _ => RecogOutcome.unknownValue) (Wav.mk 48000 1 []) ["keep2"] "tmp1"
      (fun _ => Except.error "x") [] (by decide) (by decide)).1,
    (temp_files_removed_every_path "en" (fun _ _ => SynthBehavior.mk (Except.error "boom") 1)
      "tmp0" (AppState.mk "Hi there" ["keep"]) (fun _ => Except.error "unreadable")
      (fun _ => RecogOutcome.unknownValue) (Wav.mk 48000 1 []) ["keep2"] "tmp1"
      (fun _ => Except.error "x") [] (by decide) (by decide)).2.2.1⟩

/-- Claim C6 as stated of the upload path: decoder failures are surfaced as a
caught error rather than a crash, and a zero-length upload fails with the
stage's own typed EmptyInput error — an outcome the stage itself determines,
hence one that cannot depend on which decoder is plugged in. -/
def claimC6 : Prop :=
  (∀ (decoder : List Nat → Except String AudioSegment)
      (audioRead : Wav → Except String AudioData) (recognize : AudioData → RecogOutcome)
      (bytes_in : List Nat) (fs : List String) (tmpName e : String),
    decoder bytes_in = Except.error e →
    ∃ msg, (uploadHandler decoder audioRead recognize bytes_in fs tmpName).1 =
      UploadOutcome.errorShown msg) ∧
  (∀ (d d2 : List Nat → Except String AudioSegment)
      (audioRead : Wav → Except String AudioData) (recognize : AudioData → RecogOutcome)
      (fs : List String) (tmpName : String),
    (uploadHandler d audioRead recognize [] fs tmpName).1 =
      (uploadHandler d2 audioRead recognize [] fs tmpName).1)

/-- Claim C6 is false of the code: the upload handler has no zero-length check
of its own; what an empty upload produces is exactly what the external decoder
raises, so two decoders that raise different details give two different
outcomes — there is no EmptyInput error distinct from the generic decode
failure. -/
theorem claimC6_refuted : claimC6 = False := by
  apply eq_false
  intro h
  have h2 := h.2 (fun _ => Except.error "x") (fun _ => Except.error "y")
    (fun _ => Except.ok ([] : AudioData)) (fun _ => RecogOutcome.unknownValue) [] "tmp0"
  exact absurd h2 (by decide)

/-- Claim C6 amended: every decoder failure — a corrupted upload and a
zero-length upload alike, since pydub rejects both — is caught by the single
`except Exception` and shown as the one generic conversion-failure message,
never a crash; the same holds when the exported WAV cannot be read back. A
distinct empty-input check exists only in the recording path, where
`frames_to_wav_bytes` returns `None` for zero captured frames. -/
theorem upload_errors_caught
    (decoder : List Nat → Except String AudioSegment)
    (audioRead : Wav → Except String AudioData) (recognize : AudioData → RecogOutcome)
    (bytes_in : List Nat) (fs : List String) (tmpName e : String) (seg : AudioSegment) :
    (decoder bytes_in = Except.error e →
      uploadHandler decoder audioRead recognize bytes_in fs tmpName =
        (UploadOutcome.errorShown (uploadFailMsg e), fs))
    ∧ (decoder bytes_in = Except.ok seg →
        audioRead (AudioSegment.export_wav seg) = Except.error e →
        (uploadHandler decoder audioRead recognize bytes_in fs tmpName).1 =
          UploadOutcome.errorShown (uploadFailMsg e))
    ∧ frames_to_wav_bytes [] 48000 = none := by
  refine ⟨?_, ?_, ?_⟩
  · intro hd; simp [uploadHandler, hd]
  · intro hd ha; simp [uploadHandler, hd, transcribe_wav_bytes, ha]
  · rfl

/-- Witness for the amended C6 theorem: a decoder that rejects the zero-length
upload yields the generic caught error message. -/
theorem upload_errors_caught_witness :
    ((fun _ : List Nat => (Except.error "Decoding failed" : Except String AudioSegment)) [] =
      Except.error "Decoding failed")
    ∧ uploadHandler (fun _ => Except.error "Decoding failed")
        (fun _ => Except.ok ([] : AudioData)) (fun _ => RecogOutcome.unknownValue)
        [] [] "tmp0" =
      (UploadOutcome.errorShown "Failed to convert/upload audio: Decoding failed", []) :=
  ⟨rfl,
    (upload_errors_caught (fun _ => Except.error "Decoding failed")
      (fun _ => Except.ok ([] : AudioData)) (fun _ => RecogOutcome.unknownValue)
      [] [] "tmp0" "Decoding failed" (AudioSegment.mk 1 1 [])).1 rfl⟩

/-- Claim C7 as stated: every successfully transcoded waveform comes out at one
fixed constant sample rate and one fixed constant channel count, across both
the recording path and the upload path. -/
def claimC7 : Prop :=
  ∃ R C,
    (∀ frames dflt w, frames_to_wav_bytes frames dflt = some w →
      w.rate = R ∧ w.channels = C) ∧
    (∀ seg : AudioSegment,
      (AudioSegment.export_wav seg).rate = R ∧ (AudioSegment.export_wav seg).channels = C)

/-- Claim C7 is false of the code: the upload path exports the WAV at the
source segment's own rate, so segments at 8000 Hz and at 44100 Hz come out at
two different rates — no fixed constant exists. -/
theorem claimC7_refuted : claimC7 = False := by
  apply eq_false
  rintro ⟨R, C, _, h2⟩
  have e1 := (h2 (AudioSegment.mk 8000 2 [])).1
  have e2 := (h2 (AudioSegment.mk 44100 1 [])).1
  simp [AudioSegment.export_wav] at e1 e2
  omega

/-- Claim C7 amended: the recording path does fix the channel layout — every
produced WAV is mono — but its sample rate is taken from the first received
frame (48000 only as a fallback), and the upload path preserves both the
source segment's rate and its channel count; neither output format is a fixed
constant. -/
theorem transcode_mono_rate_passthrough
    (frames : List Frame) (dflt : Nat) (w : Wav) (seg : AudioSegment)
    (h : frames_to_wav_bytes frames dflt = some w) :
    w.channels = 1 ∧ w.rate = firstRate frames dflt
    ∧ (AudioSegment.export_wav seg).rate = seg.frame_rate
    ∧ (AudioSegment.export_wav seg).channels = seg.channels := by
  cases frames with
  | nil => simp [frames_to_wav_bytes] at h
  | cons f l =>
    rw [frames_to_wav_bytes] at h
    simp only [List.map_cons] at h
    rw [if_neg (by simp)] at h
    cases h
    exact ⟨rfl, rfl, rfl, rfl⟩

/-- Witness for the amended C7 theorem: a two-channel frame at 8000 Hz comes
out as a mono WAV at 8000 Hz. -/
theorem transcode_mono_rate_passthrough_witness :
    frames_to_wav_bytes [Frame.mk (FrameData.mono [1]) (some 8000)] 48000 =
      some (Wav.mk 8000 1 [1])
    ∧ (Wav.mk 8000 1 [1]).channels = 1 ∧ (Wav.mk 8000 1 [1]).rate =
      firstRate [Frame.mk (FrameData.mono [1]) (some 8000)] 48000 :=
  ⟨rfl,
    (transcode_mono_rate_passthrough [Frame.mk (FrameData.mono [1]) (some 8000)] 48000
      (Wav.mk 8000 1 [1]) (AudioSegment.mk 1 1 []) rfl).1,
    (transcode_mono_rate_passthrough [Frame.mk (FrameData.mono [1]) (some 8000)] 48000
      (Wav.mk 8000 1 [1]) (AudioSegment.mk 1 1 []) rfl).2.1⟩

/-- Helper for C8: a pattern inside the left part of an append occurs in the
whole. -/
theorem containsSeg_left {pat l : List Char} (r : List Char)
    (h : containsSeg pat l) : containsSeg pat (l ++ r) := by
  obtain ⟨a, z, rfl⟩ := h
  exact ⟨a, z ++ r, by simp⟩

/-- Helper for C8: a pattern inside the right part of an append occurs in the
whole. -/
theorem containsSeg_right {pat r : List Char} (l : List Char)
    (h : containsSeg pat r) : containsSeg pat (l ++ r) := by
  obtain ⟨a, z, rfl⟩ := h
  exact ⟨l ++ a, z, by simp⟩

/-- Claim C8: for a non-empty artifact the rendered audio element carries the
autoplay attribute, declares the audio/mp3 media type on its source, and
embeds the artifact inline, base64-encoded, in a data URI. -/
theorem playback_embeds_base64_autoplay (audio : List Nat) (hne : audio ≠ []) :
    containsSeg (String.data "autoplay") (autoplay_audio_bytes audio)
    ∧ containsSeg (String.data "type=\"audio/mp3\"") (autoplay_audio_bytes audio)
    ∧ containsSeg (String.data "data:audio/mp3;base64," ++ base64encode audio)
        (autoplay_audio_bytes audio) := by
  refine ⟨?_, ?_, ?_⟩
  · rw [autoplay_audio_bytes, List.append_assoc]
    refine containsSeg_left _ ⟨String.data "\n        <audio ",
      String.data " controls>\n            <source src=\"data:audio/mp3;base64,", ?_⟩
    decide
  · rw [autoplay_audio_bytes, List.append_assoc]
    refine containsSeg_right _ (containsSeg_right _
      ⟨String.data "\" ", String.data ">\n        </audio>\n        ", ?_⟩)
    decide
  · rw [autoplay_audio_bytes]
    have hpre : audioHtmlPre =
        String.data "\n        <audio autoplay controls>\n            <source src=\"" ++
          String.data "data:audio/mp3;base64," := by decide
    rw [hpre, List.append_assoc, List.append_assoc, ← List.append_assoc (String.data "data:audio/mp3;base64,")]
    exact ⟨String.data "\n        <audio autoplay controls>\n            <source src=\"",
      audioHtmlPost, rfl⟩

/-- Witness for C8 on the two-byte artifact [72, 105]. -/
theorem playback_embeds_base64_autoplay_witness :
    ([72, 105] : List Nat) ≠ []
    ∧ containsSeg (String.data "autoplay") (autoplay_audio_bytes [72, 105])
    ∧ containsSeg (String.data "data:audio/mp3;base64," ++ base64encode [72, 105])
        (autoplay_audio_bytes [72, 105]) :=
  ⟨by decide,
    (playback_embeds_base64_autoplay [72, 105] (by decide)).1,
    (playback_embeds_base64_autoplay [72, 105] (by decide)).2.2⟩

/-- Helper for C9: `takeWhile` runs through a block that satisfies the
predicate and stops at the first element that does not. -/
theorem takeWhile_append_stop {α : Type} (p : α → Bool) :
    ∀ (l1 l2 : List α) (x : α), (∀ c ∈ l1, p c = true) → p x = false →
      (l1 ++ x :: l2).takeWhile p = l1 := by
  intro l1
  induction l1 with
  | nil =>
    intro l2 x _ hx
    simp [List.takeWhile_cons, hx]
  | cons a l ih =>
    intro l2 x h hx
    have ha : p a = true := h a (by simp)
    simp only [List.cons_append, List.takeWhile_cons, ha, if_true]
    rw [ih l2 x (fun c hc => h c (by simp [hc])) hx]

/-- Claim C9: the language code handed to gTTS is the selector truncated at its
first hyphen, so the selectable options "en-uk" and "en-us" both drive the
Speak handler exactly as "en" does. -/
theorem lang_code_truncated_at_hyphen :
    gtts_lang "en-uk" = "en" ∧ gtts_lang "en-us" = "en" ∧ gtts_lang "en" = "en"
    ∧ (∀ (synth : String → String → SynthBehavior) (tmpName : String) (s : AppState),
        onSpeakStep "en-uk" synth tmpName s = onSpeakStep "en" synth tmpName s)
    ∧ (∀ (synth : String → String → SynthBehavior) (tmpName : String) (s : AppState),
        onSpeakStep "en-us" synth tmpName s = onSpeakStep "en" synth tmpName s)
    ∧ (∀ (pre post : List Char), (∀ c ∈ pre, c ≠ '-') →
        gtts_lang (String.mk (pre ++ '-' :: post)) = String.mk pre) := by
  have huk : gtts_lang "en-uk" = "en" := by decide
  have hus : gtts_lang "en-us" = "en" := by decide
  have hen : gtts_lang "en" = "en" := by decide
  refine ⟨huk, hus, hen, ?_, ?_, ?_⟩
  · intro synth tmpName s
    unfold onSpeakStep
    rw [huk, hen]
  · intro synth tmpName s
    unfold onSpeakStep
    rw [hus, hen]
  · intro pre post h
    unfold gtts_lang
    refine congrArg String.mk ?_
    refine takeWhile_append_stop _ pre post '-' ?_ (by decide)
    intro c hc
    simpa using h c hc

/-- Witness for C9 at the concrete selector "de-at". -/
theorem lang_code_truncated_at_hyphen_witness :
    (∀ c ∈ String.data "de", c ≠ '-')
    ∧ gtts_lang (String.mk (String.data "de" ++ '-' :: String.data "at")) =
      String.mk (String.data "de") :=
  ⟨by decide,
    lang_code_truncated_at_hyphen.2.2.2.2.2 (String.data "de") (String.data "at") (by decide)⟩

/-- Claim C10: recognition failures come back as ordinary transcript strings —
the could-not-understand and could-not-request sentinels — and the confirm
handler writes them into the tts_text slot through exactly the same assignment
it uses for a genuine transcript. -/
theorem failure_strings_written_like_transcripts
    (s : AppState) (d t : String) :
    recogMessage RecogOutcome.unknownValue = "(Could not understand audio)"
    ∧ recogMessage (RecogOutcome.requestError d) = "(Could not request results; " ++ d ++ ")"
    ∧ (putTranscriptionClick (recogMessage RecogOutcome.unknownValue) s).tts_text =
      "(Could not understand audio)"
    ∧ (putTranscriptionClick (recogMessage (RecogOutcome.requestError d)) s).tts_text =
      "(Could not request results; " ++ d ++ ")"
    ∧ (putTranscriptionClick (recogMessage (RecogOutcome.success t)) s).tts_text = t :=
  ⟨rfl, rfl, rfl, rfl, rfl⟩
